import Mathlib

/-!
# SiftTracking — verification of the event-tracking adapter

Shallow embedding of `src/SiftTracking.js`: a client-side tracking adapter
that builds an event template at construction, side-loads a third-party
snippet, and forwards events to an HTTP collection endpoint, funnelling all
failures through one error-normalizing logger.

JavaScript dynamic values are modelled by `JSValue`; JS objects are modelled
as association lists whose lookup takes the *last* binding (matching spread
semantics, where later spreads overwrite earlier keys).
-/

namespace Sift

/-- A JavaScript runtime value, as far as the adapter inspects one. -/
inductive JSValue where
  | null
  | undefined
  | bool (b : Bool)
  | num (n : Int)
  | str (s : String)
  | arr (elems : List JSValue)
  | obj (fields : List (String × JSValue))
deriving Repr

/-- JS truthiness (`!x` is the negation of this): objects and arrays are
always truthy; `0`, `''`, `null`, `undefined`, `false` are falsy. -/
def jsTruthy : JSValue → Bool
  | .null => false
  | .undefined => false
  | .bool b => b
  | .num n => n != 0
  | .str s => s != ""
  | .arr _ => true
  | .obj _ => true

/-- `Object.prototype.toString.call(data) === '[object Object]'`: true
exactly for plain objects — arrays, primitives, `null` and `undefined` all
report a different tag. -/
def isPlainObject : JSValue → Bool
  | .obj _ => true
  | _ => false

mutual

/-- JS `String(v)` / template-literal interpolation of a value. Arrays
stringify as their elements joined by `,`, with `null`/`undefined`
elements contributing the empty string. -/
def jsToString : JSValue → String
  | .null => "null"
  | .undefined => "undefined"
  | .bool b => cond b "true" "false"
  | .num n => toString n
  | .str s => s
  | .arr xs => String.intercalate "," (jsArrParts xs)
  | .obj _ => "[object Object]"

/-- Element-wise stringification used by JS `Array.prototype.join`. -/
def jsArrParts : List JSValue → List String
  | [] => []
  | .null :: vs => "" :: jsArrParts vs
  | .undefined :: vs => "" :: jsArrParts vs
  | v :: vs => jsToString v :: jsArrParts vs

end

/-- The fields of a value when spread (`...data`); non-objects contribute
nothing (in the adapter, spreads are only reached on plain objects). -/
def jsFields : JSValue → List (String × JSValue)
  | .obj fs => fs
  | _ => []

/-- Object lookup with spread semantics: the *last* binding of a key wins,
because later spreads overwrite earlier ones. -/
def objLookup (k : String) (o : List (String × JSValue)) : Option JSValue :=
  (o.reverse.find? (fun p => p.1 == k)).map (·.2)

/-- A value thrown or used as a promise rejection inside the adapter:
an `Error` object carrying a `message`, a bare string, or a message-less
primitive (`null` / `undefined`). -/
inductive ErrVal where
  | errObj (message : String)
  | str (s : String)
  | nullv
  | undefinedv
deriving Repr, DecidableEq

/-- The value of the JS expression `error.message || error || 'UNKNOWN'`
after template interpolation, for values on which the `error.message`
property access succeeds: `Error` objects expose their message (falling
back to `String(error)`, i.e. `"Error"`, when the message is empty, since
the object itself is truthy); nonempty bare strings pass through; the
empty string falls through to the `'UNKNOWN'` marker. On `null` and
`undefined` the property access itself throws a TypeError before the `||`
chain is evaluated — see `handleErrorRun`; the nominal `'UNKNOWN'` given
here for those two branches is never reached through `handleErrorRun`. -/
def errDisplay : ErrVal → String
  | .errObj m => if m ≠ "" then m else "Error"
  | .str s => if s ≠ "" then s else "UNKNOWN"
  | .nullv => "UNKNOWN"
  | .undefinedv => "UNKNOWN"

/-- The JS expression `method || 'General'` where `method` is an optional
string parameter. -/
def methodLabel : Option String → String
  | none => "General"
  | some m => if m ≠ "" then m else "General"

/-- The diagnostic line `_handleError(error, method)` formats,
`SiftTracking::${method || 'General'}:Error: ${error.message || error ||
'UNKNOWN'}`, for failures on which the `error.message` access succeeds —
which covers every failure the adapter itself routes here (all `Error`
objects or strings). `handleErrorRun` is the full behavior of the
function, including the `null`/`undefined` inputs on which the access
throws instead of logging. -/
def handleError (error : ErrVal) (method : Option String) : String :=
  "SiftTracking::" ++ methodLabel method ++ ":Error: " ++ errDisplay error

/-- `_handleError(error, method)` in full: in JS, `error.message` on
`null` or `undefined` throws a TypeError before the `||` chain is
evaluated, so on those inputs the normalizer itself throws and logs
nothing (`none`); on every other input it logs exactly one formatted line
(`some`, the line given by `handleError`). -/
def handleErrorRun (error : ErrVal) (method : Option String) :
    Option String :=
  match error with
  | .nullv => none
  | .undefinedv => none
  | e => some (handleError e method)

/-- A console diagnostic: `console.log` or `console.error`. -/
inductive ConsoleEntry where
  | log (text : String)
  | error (text : String)
deriving Repr, DecidableEq

/-- The adapter's configuration, captured once in the constructor and never
mutated afterwards. `userId` is `` `${network}:${userId}` `` or `null`, so it
is kept as a `JSValue`; the remaining fields are strings in the source. -/
structure Config where
  userId : JSValue
  feid : String
  snippetKey : String
  snippetSrc : String
  apiKey : String
  apiUrl : String
deriving Repr

/-- Browser metadata read from `navigator` at initialization time. -/
structure Navigator where
  userAgent : String
  languages : List String
  language : String
deriving Repr

/-- The adapter instance's fields. -/
structure AdapterState where
  config : Config
  eventData : List (String × JSValue)
  isInitialized : Bool
  snippetLoaded : Bool
deriving Repr

/-- The constructor's `config` object for inputs
`(userId, feid, network)`:
`userId: userId ? `${network}:${userId}` : null` plus the hard-coded
snippet and API constants. -/
def mkConfig (userId : JSValue) (feid : String) (network : String) : Config :=
  { userId := if jsTruthy userId then .str (network ++ ":" ++ jsToString userId) else .null
    feid := feid
    snippetKey := "SNIPPET_KEY"
    snippetSrc := "https://cdn.sift.com/s.js"
    apiKey := "API_KEY"
    apiUrl := "https://api.sift.com/v205/events" }

/-- The event template built by `_init` from the config and live browser
metadata. -/
def mkEventData (cfg : Config) (nav : Navigator) : List (String × JSValue) :=
  [("$api_key", .str cfg.apiKey),
   ("$user_id", cfg.userId),
   ("$session_id", .str cfg.feid),
   ("$browser", .obj
     [("$user_agent", .str nav.userAgent),
      ("$accept_language", .str (String.intercalate "," nav.languages)),
      ("$content_language", .str nav.language)])]

/-- One command pushed onto the global `_sift` queue: a JS array literal
such as `['_setAccount', snippetKey]`. -/
abbrev SiftCmd := List JSValue

/-- A primitive side effect performed synchronously by `_loadSnippet`'s
promise executor, in source order. -/
inductive SnippetAction where
  | queuePush (cmd : SiftCmd)
  | injectScript (src : String)
deriving Repr

/-- How `_loadSnippet`'s promise stands once its executor has run:
already rejected (the `throw new Error('invalid config')` inside the
executor), or pending on the injected script element's load/error event. -/
inductive LoadExec where
  | rejectedConfig (e : ErrVal)
  | pendingScript
deriving Repr

/-- The ordered side effects of `_loadSnippet`'s executor. When any of
`feid`, `snippetKey`, `snippetSrc` is falsy the executor throws before
touching the queue or the document; otherwise it pushes the four commands
and then appends the script element. -/
def loadSnippetActions (cfg : Config) : List SnippetAction :=
  if !jsTruthy (.str cfg.feid) || !jsTruthy (.str cfg.snippetKey)
      || !jsTruthy (.str cfg.snippetSrc) then
    []
  else
    [.queuePush [.str "_setAccount", .str cfg.snippetKey],
     .queuePush [.str "_setUserId", cfg.userId],
     .queuePush [.str "_setSessionId", cfg.feid |> JSValue.str],
     .queuePush [.str "_trackPageview"],
     .injectScript cfg.snippetSrc]

/-- `_loadSnippet`'s resulting promise state (same guard as the actions). -/
def loadSnippetExec (cfg : Config) : LoadExec :=
  if !jsTruthy (.str cfg.feid) || !jsTruthy (.str cfg.snippetKey)
      || !jsTruthy (.str cfg.snippetSrc) then
    .rejectedConfig (.errObj "invalid config")
  else
    .pendingScript

/-- The global queue after the executor runs:
`window._sift = window._sift || []` lazily creates the queue, which is then
only ever pushed to. `prior = none` models an absent `window._sift`. A
config failure throws before the queue is touched, leaving it as it was. -/
def queueAfterLoad (cfg : Config) (prior : Option (List SiftCmd)) :
    Option (List SiftCmd) :=
  if !jsTruthy (.str cfg.feid) || !jsTruthy (.str cfg.snippetKey)
      || !jsTruthy (.str cfg.snippetSrc) then
    prior
  else
    some (prior.getD [] ++
      [[.str "_setAccount", .str cfg.snippetKey],
       [.str "_setUserId", cfg.userId],
       [.str "_setSessionId", .str cfg.feid],
       [.str "_trackPageview"]])

/-- The browser-side event that eventually fires on an injected script
element; `none` models a script that never settles. -/
inductive ScriptEvent where
  | load
  | error
deriving Repr

/-- How `_loadSnippet`'s promise settles: a config rejection settles
immediately with the thrown error; an injected script settles on its
load event (`resolve('SiftTracking::loadSnippet:Success')`) or error
event (`reject('script fetching failed')`), and stays pending forever if
neither fires. -/
def snippetSettle (exec : LoadExec) (ev : Option ScriptEvent) :
    Option (Except ErrVal String) :=
  match exec with
  | .rejectedConfig e => some (.error e)
  | .pendingScript =>
    match ev with
    | none => none
    | some .load => some (.ok "SiftTracking::loadSnippet:Success")
    | some .error => some (.error (.str "script fetching failed"))

/-- The `.then`/`.catch` continuation `_init` attaches to `_loadSnippet`'s
promise: success sets `snippetLoaded` and logs the message; any rejection
goes to `_handleError(error, 'loadSnippet')` and leaves the state alone. -/
def initContinuation (s : AdapterState) (r : Except ErrVal String) :
    AdapterState × List ConsoleEntry :=
  match r with
  | .ok message => ({ s with snippetLoaded := true }, [.log message])
  | .error e => (s, [.error (handleError e (some "loadSnippet"))])

/-- The snippet-load outcome observed on a constructed adapter for a given
script event: `none` while pending, otherwise the post-settle state and
the logs the continuation emitted. -/
def observeSnippet (s : AdapterState) (ev : Option ScriptEvent) :
    Option (AdapterState × List ConsoleEntry) :=
  (snippetSettle (loadSnippetExec s.config) ev).map (initContinuation s)

/-- The constructor together with the synchronous part of `_init`: capture
the config, build the event template, set `isInitialized`, and run
`_loadSnippet`'s executor (whose promise the attached continuation watches
asynchronously — see `observeSnippet`). -/
def construct (userId : JSValue) (feid : String) (network : String)
    (nav : Navigator) : AdapterState :=
  let cfg := mkConfig userId feid network
  { config := cfg
    eventData := mkEventData cfg nav
    isInitialized := true
    snippetLoaded := false }

/-- The composed outgoing event of `_apiSendEvent`:
`{"$type": type, ...this.eventData, ...data}`. With last-binding-wins
lookup, concatenation in source order models spread overwriting. -/
def composeEvent (type : JSValue) (template : List (String × JSValue))
    (data : List (String × JSValue)) : List (String × JSValue) :=
  [("$type", type)] ++ template ++ data

/-- An HTTP dispatch handed to `_apiPostData`: the endpoint URL and the
JSON body. -/
structure Dispatch where
  url : String
  payload : List (String × JSValue)
deriving Repr

/-- `_apiSendEvent(type, data)`: the four validation checks in source
order, each failing by throwing an `Error`; when all pass, the composed
event is posted to `config.apiUrl` (the fetch continuation is
`deliveryContinuation`). -/
def apiSendEvent (s : AdapterState) (type : JSValue) (data : JSValue) :
    Except ErrVal Dispatch :=
  if !s.isInitialized then
    .error (.errObj "instance is not initialized")
  else if !jsTruthy type then
    .error (.errObj "invalid event type")
  else if !isPlainObject data then
    .error (.errObj "invalid custom data")
  else if !jsTruthy (.str s.config.apiKey) || !jsTruthy (.str s.config.apiUrl) then
    .error (.errObj "invalid API config")
  else
    .ok ⟨s.config.apiUrl, composeEvent type s.eventData (jsFields data)⟩

/-- JS default-parameter semantics for `sendEvent(type, data = {})`: the
default `{}` is substituted when the argument is omitted or explicitly
`undefined`; every other value — including `null` — is passed through. -/
def jsDefaultData : Option JSValue → JSValue
  | none => .obj []
  | some .undefined => .obj []
  | some v => v

/-- The observable outcome of the synchronous part of one `sendEvent`
call: either a failure already normalized and logged (no POST), or a
dispatch handed to the transport. -/
inductive SendOutcome where
  | failed (logLine : String)
  | dispatched (d : Dispatch)
deriving Repr

/-- `sendEvent(type, data)` (public): `try { _apiSendEvent(type, data) }
catch(e) { _handleError(e, 'sendEvent') }`; returns nothing to the caller.
The source assigns no instance field on this path, so the state is
returned unchanged. -/
def sendEventStep (s : AdapterState) (type : JSValue)
    (dataArg : Option JSValue) : AdapterState × SendOutcome :=
  match apiSendEvent s type (jsDefaultData dataArg) with
  | .error e => (s, .failed (handleError e (some "sendEvent")))
  | .ok d => (s, .dispatched d)

/-- Just the outcome of one `sendEvent` call. -/
def sendEvent (s : AdapterState) (type : JSValue)
    (dataArg : Option JSValue) : SendOutcome :=
  (sendEventStep s type dataArg).2

/-- What `fetch` resolved with, as far as the `.then` handler inspects it:
`response.ok` and `response.error_message`. -/
structure FetchResponse where
  ok : Bool
  errorMessage : JSValue
deriving Repr

/-- How the `_apiPostData` promise settles: resolution with a response, or
rejection (e.g. a network-level failure). -/
inductive FetchResult where
  | resolved (r : FetchResponse)
  | rejected (e : ErrVal)
deriving Repr

/-- The `.then`/`.catch` chain `_apiSendEvent` attaches to the POST: an ok
response logs a success notice; a non-ok response throws
`` Error(`${type} ${response.error_message || 'invalid response'}`) ``,
which the following `.catch` — like any transport rejection — funnels into
`_handleError(error, 'sendEvent')`. Exactly one entry is emitted per
settled fetch. -/
def deliveryContinuation (type : JSValue) (fr : FetchResult) : ConsoleEntry :=
  match fr with
  | .resolved r =>
    if r.ok then
      .log ("SiftTracking::sendEvent:Success: " ++ jsToString type)
    else
      .error (handleError
        (.errObj (jsToString type ++ " " ++
          (if jsTruthy r.errorMessage then jsToString r.errorMessage
           else "invalid response")))
        (some "sendEvent"))
  | .rejected e => .error (handleError e (some "sendEvent"))

/-- The full observable trace of one `sendEvent` call: the console entries
it produces (given how the fetch settles, `none` = still pending) and the
POST it issues, if any. -/
def sendEventTrace (s : AdapterState) (type : JSValue)
    (dataArg : Option JSValue) (fetch : Option FetchResult) :
    List ConsoleEntry × Option Dispatch :=
  match sendEvent s type dataArg with
  | .failed line => ([.error line], none)
  | .dispatched d =>
    match fetch with
    | none => ([], some d)
    | some fr => ([deliveryContinuation type fr], some d)

/-- A sequence of `sendEvent` calls threaded through the adapter state. -/
def runSends (s : AdapterState) :
    List (JSValue × Option JSValue) → AdapterState × List SendOutcome
  | [] => (s, [])
  | (t, d) :: rest =>
    let (s', o) := sendEventStep s t d
    let (s'', os) := runSends s' rest
    (s'', o :: os)

/-- A sample browser environment, used to instantiate theorems. -/
def sampleNav : Navigator :=
  { userAgent := "Mozilla/5.0", languages := ["en-US", "en"], language := "en-US" }

/-- A sample adapter, constructed as the bootstrap line does:
`new SiftTracking('userId', 'gl.getFEID()', 'network_name')`. -/
def sampleState : AdapterState :=
  construct (.str "userId") "gl.getFEID()" "network_name" sampleNav

/-! ## Lemmas about object lookup and the normalizer format -/

theorem objLookup_append (k : String) (a b : List (String × JSValue)) :
    objLookup k (a ++ b) = (objLookup k b).or (objLookup k a) := by
  unfold objLookup
  rw [List.reverse_append, List.find?_append]
  cases b.reverse.find? fun p => p.1 == k <;> rfl

theorem objLookup_single (k a : String) (v : JSValue) :
    objLookup k [(a, v)] = if a = k then some v else none := by
  by_cases h : a = k
  · subst h; simp [objLookup, List.find?]
  · have hb : (a == k) = false := by simpa using h
    simp [objLookup, List.find?, hb, h]

theorem objLookup_mem_of_ne_none (k : String) (l : List (String × JSValue))
    (h : objLookup k l ≠ none) : ∃ v, (k, v) ∈ l := by
  unfold objLookup at h
  cases hf : l.reverse.find? fun p => p.1 == k with
  | none => rw [hf] at h; simp at h
  | some p =>
    have hp := List.find?_some hf
    have hm := List.mem_of_find?_eq_some hf
    rw [List.mem_reverse] at hm
    have hk : p.1 = k := by simpa using hp
    exact ⟨p.2, by rw [← hk]; exact hm⟩

theorem handleError_tag_sendEvent (e : ErrVal) :
    handleError e (some "sendEvent") =
      "SiftTracking::sendEvent:Error: " ++ errDisplay e := by
  show ("SiftTracking::" ++ "sendEvent" ++ ":Error: " ++ errDisplay e) = _
  rw [show ("SiftTracking::" ++ "sendEvent" ++ ":Error: " : String) =
    "SiftTracking::sendEvent:Error: " from rfl]

theorem handleError_tag_loadSnippet (e : ErrVal) :
    handleError e (some "loadSnippet") =
      "SiftTracking::loadSnippet:Error: " ++ errDisplay e := by
  show ("SiftTracking::" ++ "loadSnippet" ++ ":Error: " ++ errDisplay e) = _
  rw [show ("SiftTracking::" ++ "loadSnippet" ++ ":Error: " : String) =
    "SiftTracking::loadSnippet:Error: " from rfl]

theorem apiSendEvent_valid (s : AdapterState) (t : JSValue)
    (fs : List (String × JSValue))
    (h1 : s.isInitialized = true) (h2 : jsTruthy t = true)
    (hk : s.config.apiKey ≠ "") (hu : s.config.apiUrl ≠ "") :
    apiSendEvent s t (.obj fs) =
      .ok ⟨s.config.apiUrl, composeEvent t s.eventData fs⟩ := by
  have hcond : (!jsTruthy (.str s.config.apiKey)
      || !jsTruthy (.str s.config.apiUrl)) = false := by
    simp [jsTruthy, hk, hu]
  simp [apiSendEvent, h1, h2, hcond, isPlainObject, jsFields]

theorem objLookup_compose (k : String) (t : JSValue)
    (tmpl fs : List (String × JSValue)) :
    objLookup k (composeEvent t tmpl fs) =
      (objLookup k fs).or ((objLookup k tmpl).or
        (if "$type" = k then some t else none)) := by
  unfold composeEvent
  rw [objLookup_append, objLookup_append, objLookup_single]

theorem sendEventStep_fst (s : AdapterState) (t : JSValue)
    (d : Option JSValue) : (sendEventStep s t d).1 = s := by
  unfold sendEventStep
  cases apiSendEvent s t (jsDefaultData d) <;> rfl

theorem runSends_fst (s : AdapterState)
    (calls : List (JSValue × Option JSValue)) : (runSends s calls).1 = s := by
  induction calls generalizing s with
  | nil => rfl
  | cons c rest ih =>
    obtain ⟨t, d⟩ := c
    show (runSends (sendEventStep s t d).1 rest).1 = s
    rw [sendEventStep_fst]
    exact ih s

/-! ## The claims -/

/-- C1. `sendEvent(type, data)` applies its validation checks in exactly
this order — (1) `isInitialized`, (2) truthy `type`, (3) `data` a plain
object, (4) `apiKey` and `apiUrl` both present — each failure being
normalized with operation tag `sendEvent` into the corresponding log line,
and a failed call never dispatches an HTTP POST. -/
theorem sendEvent_validation_order (s : AdapterState) (t : JSValue)
    (d : Option JSValue) :
    (s.isInitialized = false →
      sendEvent s t d =
        .failed "SiftTracking::sendEvent:Error: instance is not initialized") ∧
    (s.isInitialized = true → jsTruthy t = false →
      sendEvent s t d =
        .failed "SiftTracking::sendEvent:Error: invalid event type") ∧
    (s.isInitialized = true → jsTruthy t = true →
      isPlainObject (jsDefaultData d) = false →
      sendEvent s t d =
        .failed "SiftTracking::sendEvent:Error: invalid custom data") ∧
    (s.isInitialized = true → jsTruthy t = true →
      isPlainObject (jsDefaultData d) = true →
      (s.config.apiKey = "" ∨ s.config.apiUrl = "") →
      sendEvent s t d =
        .failed "SiftTracking::sendEvent:Error: invalid API config") ∧
    (∀ line, sendEvent s t d = .failed line →
      (∃ e, line = handleError e (some "sendEvent")) ∧
      ∀ fetch, (sendEventTrace s t d fetch).2 = none) := by
  refine ⟨?_, ?_, ?_, ?_, ?_⟩
  · intro h1
    simp [sendEvent, sendEventStep, apiSendEvent, h1, handleError_tag_sendEvent,
      errDisplay]
  · intro h1 h2
    simp [sendEvent, sendEventStep, apiSendEvent, h1, h2,
      handleError_tag_sendEvent, errDisplay]
  · intro h1 h2 h3
    simp [sendEvent, sendEventStep, apiSendEvent, h1, h2, h3,
      handleError_tag_sendEvent, errDisplay]
  · intro h1 h2 h3 h4
    have hcond : (!jsTruthy (.str s.config.apiKey)
        || !jsTruthy (.str s.config.apiUrl)) = true := by
      rcases h4 with h | h <;> simp [jsTruthy, h]
    simp [sendEvent, sendEventStep, apiSendEvent, h1, h2, h3, hcond,
      handleError_tag_sendEvent, errDisplay]
  · intro line hline
    constructor
    · unfold sendEvent sendEventStep at hline
      cases hs : apiSendEvent s t (jsDefaultData d) with
      | error e =>
        rw [hs] at hline
        exact ⟨e, by simpa using hline.symm⟩
      | ok disp => rw [hs] at hline; simp at hline
    · intro fetch
      simp [sendEventTrace, hline]

/-- Witness for C1: the four rejection branches at concrete inputs. -/
theorem sendEvent_validation_order_witness :
    (sendEvent { sampleState with isInitialized := false }
        (.str "$create_account") none =
      .failed "SiftTracking::sendEvent:Error: instance is not initialized") ∧
    (sendEvent sampleState (.str "") none =
      .failed "SiftTracking::sendEvent:Error: invalid event type") ∧
    (sendEvent sampleState (.str "$create_account") (some (.arr [])) =
      .failed "SiftTracking::sendEvent:Error: invalid custom data") ∧
    (sendEvent { sampleState with
        config := { sampleState.config with apiKey := "" } }
        (.str "$create_account") none =
      .failed "SiftTracking::sendEvent:Error: invalid API config") := by
  refine ⟨?_, ?_, ?_, ?_⟩
  · exact (sendEvent_validation_order _ _ _).1 rfl
  · exact (sendEvent_validation_order _ _ _).2.1 rfl rfl
  · exact (sendEvent_validation_order _ _ _).2.2.1 rfl rfl rfl
  · exact (sendEvent_validation_order _ _ _).2.2.2.1 rfl rfl rfl (Or.inl rfl)

/-- C2. A fully validated `sendEvent(type, data)` dispatches the merge
`{"$type": type, ...template, ...data}` with last-write-wins: a key is
looked up first in `data`, then in the template, and the `$type` tag only
wins when neither binds it — so `data` overrides same-named template keys
(e.g. `$session_id`). -/
theorem sendEvent_compose_merge (s : AdapterState) (t : JSValue)
    (fs : List (String × JSValue))
    (h1 : s.isInitialized = true) (h2 : jsTruthy t = true)
    (hk : s.config.apiKey ≠ "") (hu : s.config.apiUrl ≠ "") :
    sendEvent s t (some (.obj fs)) =
      .dispatched ⟨s.config.apiUrl, composeEvent t s.eventData fs⟩ ∧
    ∀ k, objLookup k (composeEvent t s.eventData fs) =
      (objLookup k fs).or ((objLookup k s.eventData).or
        (if "$type" = k then some t else none)) := by
  constructor
  · unfold sendEvent sendEventStep
    rw [show jsDefaultData (some (.obj fs)) = JSValue.obj fs from rfl,
      apiSendEvent_valid s t fs h1 h2 hk hu]
  · intro k
    exact objLookup_compose k t s.eventData fs

/-- Witness for C2 at the bootstrap call's arguments, plus the
`$session_id` override example. -/
theorem sendEvent_compose_merge_witness :
    sendEvent sampleState (.str "$create_account")
        (some (.obj [("custom", .str "var_value")])) =
      .dispatched ⟨"https://api.sift.com/v205/events",
        composeEvent (.str "$create_account") sampleState.eventData
          [("custom", .str "var_value")]⟩ ∧
    objLookup "$session_id"
        (composeEvent (.str "$create_account") sampleState.eventData
          [("$session_id", .str "overridden")]) =
      some (.str "overridden") := by
  constructor
  · exact (sendEvent_compose_merge sampleState (.str "$create_account")
      [("custom", .str "var_value")] rfl rfl (by decide) (by decide)).1
  · have h := (sendEvent_compose_merge sampleState (.str "$create_account")
      [("$session_id", .str "overridden")] rfl rfl (by decide) (by decide)).2
      "$session_id"
    rw [h]; rfl

/-- C3. `sendEvent` never surfaces a failure to its caller: for every
state, arguments and fetch outcome, the call's whole observable trace is
at most one console entry — a rejected call logs exactly one normalized
`sendEvent`-tagged error line and issues no POST; a dispatched call's
settled fetch yields exactly one entry, either the success notice or one
normalized `sendEvent`-tagged error line. -/
theorem sendEvent_never_escapes (s : AdapterState) (t : JSValue)
    (d : Option JSValue) (fetch : Option FetchResult) :
    (∃ m, sendEventTrace s t d fetch =
      ([.error ("SiftTracking::sendEvent:Error: " ++ m)], none)) ∨
    (∃ disp, (sendEventTrace s t d fetch).2 = some disp ∧
      ((sendEventTrace s t d fetch).1 = [] ∨
       (sendEventTrace s t d fetch).1 =
         [.log ("SiftTracking::sendEvent:Success: " ++ jsToString t)] ∨
       ∃ m, (sendEventTrace s t d fetch).1 =
         [.error ("SiftTracking::sendEvent:Error: " ++ m)])) := by
  unfold sendEventTrace sendEvent sendEventStep
  cases hs : apiSendEvent s t (jsDefaultData d) with
  | error e =>
    exact Or.inl ⟨errDisplay e, by simp [handleError_tag_sendEvent]⟩
  | ok disp =>
    refine Or.inr ⟨disp, ?_⟩
    cases fetch with
    | none => exact ⟨rfl, Or.inl rfl⟩
    | some fr =>
      refine ⟨rfl, Or.inr ?_⟩
      cases fr with
      | resolved r =>
        by_cases hok : r.ok
        · exact Or.inl (by simp [deliveryContinuation, hok])
        · refine Or.inr ⟨jsToString t ++ " " ++
            (if jsTruthy r.errorMessage then jsToString r.errorMessage
             else "invalid response"), ?_⟩
          have hne : (jsToString t ++ " " ++
              (if jsTruthy r.errorMessage then jsToString r.errorMessage
               else "invalid response")) ≠ "" := by
            intro h
            have hlen := congrArg String.length h
            rw [String.length_append, String.length_append,
              show (" " : String).length = 1 from rfl,
              show ("" : String).length = 0 from rfl] at hlen
            omega
          simp [deliveryContinuation, hok, handleError_tag_sendEvent,
            errDisplay, hne]
      | rejected e =>
        exact Or.inr ⟨errDisplay e,
          by simp [deliveryContinuation, handleError_tag_sendEvent]⟩

/-- C4 counterexample, two concrete failures of the claim. First, the
normalizer separates the operation tag from `Error:` with a single colon,
so the produced line is `SiftTracking::sendEvent:Error: boom`, not the
claimed shape `<Component>::<operation>::Error: <message>` (which here
would be `SiftTracking::sendEvent::Error: boom`). Second, for a value
carrying no message that is `undefined` (likewise `null`), the property
access `error.message` throws a TypeError, so the normalizer re-throws
and produces no log line at all — not the claimed `UNKNOWN` line. -/
theorem handleError_shape_counterexample :
    handleError (.errObj "boom") (some "sendEvent") =
      "SiftTracking::sendEvent:Error: boom" ∧
    handleError (.errObj "boom") (some "sendEvent") ≠
      "SiftTracking::sendEvent::Error: boom" ∧
    handleErrorRun .undefinedv (some "sendEvent") = none := by
  exact ⟨by decide, by decide, rfl⟩

/-- C4 (amended): for an Error object carrying a message or a nonempty
bare string, the Error Normalizer produces exactly one line of the shape
`<Component>::<operation>:Error: <message>` — with a single colon before
`Error` — where the operation defaults to `General` when not supplied; an
empty-string failure falls back to the `UNKNOWN` marker; but on a
message-less `null` or `undefined` failure the `error.message` access
itself throws a TypeError: there the normalizer re-throws and logs
nothing. -/
theorem handleError_normal_form :
    (∀ m op, m ≠ "" → op ≠ "" →
      handleErrorRun (.errObj m) (some op) =
        some ("SiftTracking::" ++ op ++ ":Error: " ++ m)) ∧
    (∀ r op, r ≠ "" → op ≠ "" →
      handleErrorRun (.str r) (some op) =
        some ("SiftTracking::" ++ op ++ ":Error: " ++ r)) ∧
    (∀ op, handleErrorRun (.str "") op =
      some ("SiftTracking::" ++ methodLabel op ++ ":Error: " ++
        "UNKNOWN")) ∧
    (∀ op, handleErrorRun .nullv op = none ∧
      handleErrorRun .undefinedv op = none) ∧
    (∀ m, m ≠ "" → handleErrorRun (.errObj m) none =
      some ("SiftTracking::" ++ "General" ++ ":Error: " ++ m)) := by
  refine ⟨?_, ?_, ?_, ?_, ?_⟩
  · intro m op hm hop
    simp [handleErrorRun, handleError, methodLabel, errDisplay, hm, hop]
  · intro r op hr hop
    simp [handleErrorRun, handleError, methodLabel, errDisplay, hr, hop]
  · intro op
    simp [handleErrorRun, handleError, errDisplay]
  · intro op
    exact ⟨rfl, rfl⟩
  · intro m hm
    simp [handleErrorRun, handleError, methodLabel, errDisplay, hm]

/-- Witness for C4's amended claim: the message fallbacks at concrete
failures the adapter can produce, and the throwing `undefined` case. -/
theorem handleError_normal_form_witness :
    handleErrorRun (.errObj "invalid config") (some "loadSnippet") =
      some ("SiftTracking::" ++ "loadSnippet" ++ ":Error: " ++
        "invalid config") ∧
    handleErrorRun (.str "script fetching failed") (some "loadSnippet") =
      some ("SiftTracking::" ++ "loadSnippet" ++ ":Error: " ++
        "script fetching failed") ∧
    handleErrorRun (.str "") (some "sendEvent") =
      some ("SiftTracking::" ++ methodLabel (some "sendEvent") ++
        ":Error: " ++ "UNKNOWN") ∧
    handleErrorRun .nullv (some "sendEvent") = none :=
  ⟨handleError_normal_form.1 "invalid config" "loadSnippet"
      (by decide) (by decide),
   handleError_normal_form.2.1 "script fetching failed" "loadSnippet"
      (by decide) (by decide),
   handleError_normal_form.2.2.1 (some "sendEvent"),
   (handleError_normal_form.2.2.2.1 (some "sendEvent")).1⟩

/-- C5. Construction synchronously builds the event template and sets
`isInitialized` unconditionally, for every input triple; however the
snippet load later settles, the post-settle state is still initialized and
the continuation emits exactly one log entry; a snippet-load failure
leaves the state unchanged and produces exactly one normalized error line
tagged `loadSnippet`. -/
theorem construct_initialized (userId : JSValue) (feid network : String)
    (nav : Navigator) :
    (construct userId feid network nav).isInitialized = true ∧
    (construct userId feid network nav).eventData =
      mkEventData (mkConfig userId feid network) nav ∧
    (∀ ev st logs,
      observeSnippet (construct userId feid network nav) ev =
        some (st, logs) →
      st.isInitialized = true ∧ logs.length = 1) ∧
    (∀ e, initContinuation (construct userId feid network nav) (.error e) =
      (construct userId feid network nav,
        [.error ("SiftTracking::loadSnippet:Error: " ++ errDisplay e)])) := by
  refine ⟨rfl, rfl, ?_, ?_⟩
  · intro ev st logs h
    unfold observeSnippet at h
    cases hset : snippetSettle
        (loadSnippetExec (construct userId feid network nav).config) ev with
    | none => rw [hset] at h; simp at h
    | some r =>
      rw [hset] at h
      have h' := Option.some.inj h
      have hst : st = (initContinuation (construct userId feid network nav) r).1 := by
        rw [h']
      have hlogs : logs = (initContinuation (construct userId feid network nav) r).2 := by
        rw [h']
      subst hst hlogs
      cases r with
      | ok m => exact ⟨rfl, rfl⟩
      | error e => exact ⟨rfl, rfl⟩
  · intro e
    simp [initContinuation, handleError_tag_loadSnippet]

/-- Witness for C5: the sample adapter observed after a simulated script
error event — still initialized, exactly one log. -/
theorem construct_initialized_witness :
    sampleState.isInitialized = true ∧
    ([ConsoleEntry.error
        "SiftTracking::loadSnippet:Error: script fetching failed"] :
      List ConsoleEntry).length = 1 :=
  (construct_initialized (.str "userId") "gl.getFEID()" "network_name"
    sampleNav).2.2.1 (some .error) sampleState
    [.error "SiftTracking::loadSnippet:Error: script fetching failed"] rfl

/-- C6. When `feid` (sessionId), `snippetKey` or `snippetSrc` is empty,
the snippet loader fails with `invalid config` before pushing any queue
command and before injecting any script element; the failure settles
through the same rejection path as a network load failure, and the
attached catch turns it into the normalized `loadSnippet`-tagged line. -/
theorem loadSnippet_invalid_config (cfg : Config)
    (prior : Option (List SiftCmd))
    (h : cfg.feid = "" ∨ cfg.snippetKey = "" ∨ cfg.snippetSrc = "") :
    loadSnippetActions cfg = [] ∧
    queueAfterLoad cfg prior = prior ∧
    loadSnippetExec cfg = .rejectedConfig (.errObj "invalid config") ∧
    (∀ ev, snippetSettle (loadSnippetExec cfg) ev =
      some (.error (.errObj "invalid config"))) ∧
    (∀ s : AdapterState,
      initContinuation s (.error (.errObj "invalid config")) =
        (s, [.error "SiftTracking::loadSnippet:Error: invalid config"])) := by
  have hcond : (!jsTruthy (.str cfg.feid) || !jsTruthy (.str cfg.snippetKey)
      || !jsTruthy (.str cfg.snippetSrc)) = true := by
    rcases h with h | h | h <;> simp [jsTruthy, h]
  have hexec : loadSnippetExec cfg = .rejectedConfig (.errObj "invalid config") := by
    simp [loadSnippetExec, hcond]
  refine ⟨?_, ?_, hexec, ?_, ?_⟩
  · simp [loadSnippetActions, hcond]
  · simp [queueAfterLoad, hcond]
  · intro ev
    rw [hexec]
    rfl
  · intro s
    simp [initContinuation, handleError_tag_loadSnippet, errDisplay]

/-- Witness for C6 at the default construction's config
(`new SiftTracking()` leaves `feid = ''`). -/
theorem loadSnippet_invalid_config_witness :
    loadSnippetActions (mkConfig .null "" "default") = [] ∧
    queueAfterLoad (mkConfig .null "" "default") none = none ∧
    snippetSettle (loadSnippetExec (mkConfig .null "" "default")) none =
      some (.error (.errObj "invalid config")) :=
  ⟨(loadSnippet_invalid_config (mkConfig .null "" "default") none
      (Or.inl rfl)).1,
   (loadSnippet_invalid_config (mkConfig .null "" "default") none
      (Or.inl rfl)).2.1,
   (loadSnippet_invalid_config (mkConfig .null "" "default") none
      (Or.inl rfl)).2.2.2.1 none⟩

/-- C7. When its preconditions hold, the snippet loader performs exactly
five ordered actions — the four queue pushes `_setAccount(snippetKey)`,
`_setUserId(userId)`, `_setSessionId(feid)`, `_trackPageview()`, in that
order, followed by the script injection — and the lazily-created global
queue becomes its prior contents (empty when absent) with exactly those
four commands appended, i.e. it is only ever appended to. -/
theorem loadSnippet_queue_commands (cfg : Config)
    (prior : Option (List SiftCmd))
    (hf : cfg.feid ≠ "") (hk : cfg.snippetKey ≠ "") (hs : cfg.snippetSrc ≠ "") :
    loadSnippetActions cfg =
      [.queuePush [.str "_setAccount", .str cfg.snippetKey],
       .queuePush [.str "_setUserId", cfg.userId],
       .queuePush [.str "_setSessionId", .str cfg.feid],
       .queuePush [.str "_trackPageview"],
       .injectScript cfg.snippetSrc] ∧
    queueAfterLoad cfg prior =
      some (prior.getD [] ++
        [[.str "_setAccount", .str cfg.snippetKey],
         [.str "_setUserId", cfg.userId],
         [.str "_setSessionId", .str cfg.feid],
         [.str "_trackPageview"]]) ∧
    (∀ q', queueAfterLoad cfg prior = some q' →
      ∃ added, q' = prior.getD [] ++ added) := by
  have hcond : (!jsTruthy (.str cfg.feid) || !jsTruthy (.str cfg.snippetKey)
      || !jsTruthy (.str cfg.snippetSrc)) = false := by
    simp [jsTruthy, hf, hk, hs]
  have hq : queueAfterLoad cfg prior =
      some (prior.getD [] ++
        [[.str "_setAccount", .str cfg.snippetKey],
         [.str "_setUserId", cfg.userId],
         [.str "_setSessionId", .str cfg.feid],
         [.str "_trackPageview"]]) := by
    simp [queueAfterLoad, hcond]
  refine ⟨?_, hq, ?_⟩
  · simp [loadSnippetActions, hcond]
  · intro q' hq'
    rw [hq] at hq'
    exact ⟨_, (Option.some.inj hq').symm⟩

/-- Witness for C7 at the sample adapter's config with a nonempty prior
queue. -/
theorem loadSnippet_queue_commands_witness :
    loadSnippetActions sampleState.config =
      [.queuePush [.str "_setAccount", .str "SNIPPET_KEY"],
       .queuePush [.str "_setUserId", .str "network_name:userId"],
       .queuePush [.str "_setSessionId", .str "gl.getFEID()"],
       .queuePush [.str "_trackPageview"],
       .injectScript "https://cdn.sift.com/s.js"] ∧
    queueAfterLoad sampleState.config (some [[.str "_pre"]]) =
      some ([[.str "_pre"]] ++
        [[.str "_setAccount", .str "SNIPPET_KEY"],
         [.str "_setUserId", .str "network_name:userId"],
         [.str "_setSessionId", .str "gl.getFEID()"],
         [.str "_trackPageview"]]) :=
  ⟨(loadSnippet_queue_commands sampleState.config (some [[.str "_pre"]])
      (by decide) (by decide) (by decide)).1,
   (loadSnippet_queue_commands sampleState.config (some [[.str "_pre"]])
      (by decide) (by decide) (by decide)).2.1⟩

/-- C8. No `sendEvent` call mutates the adapter state (in particular the
event template): any sequence of calls leaves the state identical; and two
sequential valid sends whose data carries neither template keys nor
`$type` dispatch two payloads whose template-derived fields are all
identical to the template's (hence identical across both), each carrying
its own type tag. -/
theorem sendEvent_frame_template (s : AdapterState)
    (calls : List (JSValue × Option JSValue)) (t₁ t₂ : JSValue)
    (d₁ d₂ : List (String × JSValue))
    (h1 : s.isInitialized = true)
    (ht₁ : jsTruthy t₁ = true) (ht₂ : jsTruthy t₂ = true)
    (hk : s.config.apiKey ≠ "") (hu : s.config.apiUrl ≠ "")
    (hd₁ : ∀ p ∈ d₁, objLookup p.1 s.eventData = none ∧ p.1 ≠ "$type")
    (hd₂ : ∀ p ∈ d₂, objLookup p.1 s.eventData = none ∧ p.1 ≠ "$type")
    (hnt : objLookup "$type" s.eventData = none) :
    (runSends s calls).1 = s ∧
    (runSends s [(t₁, some (.obj d₁)), (t₂, some (.obj d₂))]).2 =
      [.dispatched ⟨s.config.apiUrl, composeEvent t₁ s.eventData d₁⟩,
       .dispatched ⟨s.config.apiUrl, composeEvent t₂ s.eventData d₂⟩] ∧
    (∀ k v, objLookup k s.eventData = some v →
      objLookup k (composeEvent t₁ s.eventData d₁) = some v ∧
      objLookup k (composeEvent t₂ s.eventData d₂) = some v) ∧
    objLookup "$type" (composeEvent t₁ s.eventData d₁) = some t₁ ∧
    objLookup "$type" (composeEvent t₂ s.eventData d₂) = some t₂ := by
  have hnone : ∀ (d : List (String × JSValue)),
      (∀ p ∈ d, objLookup p.1 s.eventData = none ∧ p.1 ≠ "$type") →
      ∀ k, objLookup k s.eventData ≠ none ∨ k = "$type" →
      objLookup k d = none := by
    intro d hd k hk'
    by_contra hne
    obtain ⟨w, hw⟩ := objLookup_mem_of_ne_none k d hne
    rcases hk' with h | h
    · exact h ((hd (k, w) hw).1)
    · exact (hd (k, w) hw).2 h
  refine ⟨runSends_fst s calls, ?_, ?_, ?_, ?_⟩
  · have e₁ := apiSendEvent_valid s t₁ d₁ h1 ht₁ hk hu
    have e₂ := apiSendEvent_valid s t₂ d₂ h1 ht₂ hk hu
    simp [runSends, sendEventStep, jsDefaultData, e₁, e₂]
  · intro k v hv
    have hd₁' := hnone d₁ hd₁ k (Or.inl (by rw [hv]; exact Option.noConfusion))
    have hd₂' := hnone d₂ hd₂ k (Or.inl (by rw [hv]; exact Option.noConfusion))
    constructor <;> simp [objLookup_compose, hd₁', hd₂', hv]
  · have h' := hnone d₁ hd₁ "$type" (Or.inr rfl)
    simp [objLookup_compose, h', hnt]
  · have h' := hnone d₂ hd₂ "$type" (Or.inr rfl)
    simp [objLookup_compose, h', hnt]

/-- Witness for C8: two sequential sends on the sample adapter leave the
state intact and both payloads carry the template's `$session_id`. -/
theorem sendEvent_frame_template_witness :
    (runSends sampleState
      [(.str "$event_a", some (.obj [("custom", .str "v1")])),
       (.str "$event_b", some (.obj [("other", .str "v2")]))]).1 =
      sampleState ∧
    (runSends sampleState
      [(.str "$event_a", some (.obj [("custom", .str "v1")])),
       (.str "$event_b", some (.obj [("other", .str "v2")]))]).2 =
      [.dispatched ⟨sampleState.config.apiUrl,
        composeEvent (.str "$event_a") sampleState.eventData
          [("custom", .str "v1")]⟩,
       .dispatched ⟨sampleState.config.apiUrl,
        composeEvent (.str "$event_b") sampleState.eventData
          [("other", .str "v2")]⟩] ∧
    objLookup "$session_id"
      (composeEvent (.str "$event_a") sampleState.eventData
        [("custom", .str "v1")]) = some (.str "gl.getFEID()") ∧
    objLookup "$session_id"
      (composeEvent (.str "$event_b") sampleState.eventData
        [("other", .str "v2")]) = some (.str "gl.getFEID()") ∧
    objLookup "$type"
      (composeEvent (.str "$event_a") sampleState.eventData
        [("custom", .str "v1")]) = some (.str "$event_a") ∧
    objLookup "$type"
      (composeEvent (.str "$event_b") sampleState.eventData
        [("other", .str "v2")]) = some (.str "$event_b") := by
  have h := sendEvent_frame_template sampleState
    [(.str "$event_a", some (.obj [("custom", .str "v1")])),
     (.str "$event_b", some (.obj [("other", .str "v2")]))]
    (.str "$event_a") (.str "$event_b")
    [("custom", .str "v1")] [("other", .str "v2")]
    rfl rfl rfl (by decide) (by decide)
    (by intro p hp; simp only [List.mem_singleton] at hp; subst hp
        exact ⟨rfl, by decide⟩)
    (by intro p hp; simp only [List.mem_singleton] at hp; subst hp
        exact ⟨rfl, by decide⟩)
    rfl
  obtain ⟨ha, hb, hc, hd, he⟩ := h
  have hsa := hc "$session_id" (.str "gl.getFEID()") rfl
  exact ⟨ha, hb, hsa.1, hsa.2, hd, he⟩

/-- C9. Because caller data is merged last, a valid send whose `data`
binds the reserved key `$type` dispatches a payload whose `$type` field is
`data`'s value, not the `type` argument. -/
theorem sendEvent_data_overrides_type (s : AdapterState) (t v : JSValue)
    (fs : List (String × JSValue))
    (h1 : s.isInitialized = true) (h2 : jsTruthy t = true)
    (hk : s.config.apiKey ≠ "") (hu : s.config.apiUrl ≠ "")
    (hv : objLookup "$type" fs = some v) :
    sendEvent s t (some (.obj fs)) =
      .dispatched ⟨s.config.apiUrl, composeEvent t s.eventData fs⟩ ∧
    objLookup "$type" (composeEvent t s.eventData fs) = some v ∧
    (v ≠ t → objLookup "$type" (composeEvent t s.eventData fs) ≠ some t) := by
  have htype : objLookup "$type" (composeEvent t s.eventData fs) = some v := by
    simp [objLookup_compose, hv]
  refine ⟨?_, htype, ?_⟩
  · unfold sendEvent sendEventStep
    rw [show jsDefaultData (some (.obj fs)) = JSValue.obj fs from rfl,
      apiSendEvent_valid s t fs h1 h2 hk hu]
  · intro hvt hcontra
    rw [htype] at hcontra
    exact hvt (Option.some.inj hcontra)

/-- Witness for C9: spoofing `$type` through `data` on the sample
adapter. -/
theorem sendEvent_data_overrides_type_witness :
    sendEvent sampleState (.str "$create_account")
        (some (.obj [("$type", .str "spoofed")])) =
      .dispatched ⟨sampleState.config.apiUrl,
        composeEvent (.str "$create_account") sampleState.eventData
          [("$type", .str "spoofed")]⟩ ∧
    objLookup "$type"
      (composeEvent (.str "$create_account") sampleState.eventData
        [("$type", .str "spoofed")]) = some (.str "spoofed") ∧
    objLookup "$type"
      (composeEvent (.str "$create_account") sampleState.eventData
        [("$type", .str "spoofed")]) ≠ some (.str "$create_account") := by
  have h := sendEvent_data_overrides_type sampleState
    (.str "$create_account") (.str "spoofed") [("$type", .str "spoofed")]
    rfl rfl (by decide) (by decide) rfl
  exact ⟨h.1, h.2.1, h.2.2 (by simp)⟩

/-- C10. `sendEvent(t)` with the `data` argument omitted (or explicitly
`undefined`) substitutes the empty mapping and proceeds as a valid send,
while `sendEvent(t, null)` fails the plain-mapping check: it logs the
normalized `invalid custom data` line, issues no POST, and so behaves
differently from the omitted-argument call. -/
theorem sendEvent_null_vs_omitted (s : AdapterState) (t : JSValue)
    (h1 : s.isInitialized = true) (h2 : jsTruthy t = true)
    (hk : s.config.apiKey ≠ "") (hu : s.config.apiUrl ≠ "") :
    sendEvent s t none =
      .dispatched ⟨s.config.apiUrl, composeEvent t s.eventData []⟩ ∧
    sendEvent s t (some .undefined) = sendEvent s t none ∧
    (∀ fetch, sendEventTrace s t (some .null) fetch =
      ([.error "SiftTracking::sendEvent:Error: invalid custom data"],
        none)) ∧
    sendEvent s t (some .null) ≠ sendEvent s t none := by
  have hnone : sendEvent s t none =
      .dispatched ⟨s.config.apiUrl, composeEvent t s.eventData []⟩ := by
    unfold sendEvent sendEventStep
    rw [show jsDefaultData none = JSValue.obj [] from rfl,
      apiSendEvent_valid s t [] h1 h2 hk hu]
  have hnull : sendEvent s t (some .null) =
      .failed "SiftTracking::sendEvent:Error: invalid custom data" := by
    simp [sendEvent, sendEventStep, apiSendEvent, jsDefaultData, h1, h2,
      isPlainObject, handleError_tag_sendEvent, errDisplay]
  refine ⟨hnone, rfl, ?_, ?_⟩
  · intro fetch
    simp [sendEventTrace, hnull]
  · rw [hnull, hnone]
    exact fun h => SendOutcome.noConfusion h

/-- Witness for C10 on the sample adapter. -/
theorem sendEvent_null_vs_omitted_witness :
    sendEvent sampleState (.str "$create_account") none =
      .dispatched ⟨sampleState.config.apiUrl,
        composeEvent (.str "$create_account") sampleState.eventData []⟩ ∧
    sendEventTrace sampleState (.str "$create_account") (some .null) none =
      ([.error "SiftTracking::sendEvent:Error: invalid custom data"],
        none) ∧
    sendEvent sampleState (.str "$create_account") (some .null) ≠
      sendEvent sampleState (.str "$create_account") none := by
  have h := sendEvent_null_vs_omitted sampleState (.str "$create_account")
    rfl rfl (by decide) (by decide)
  exact ⟨h.1, h.2.2.1 none, h.2.2.2⟩

end Sift
